import Mathlib

/-!
Shallow embedding of the `user-aauth-repo` authentication backend
(`src/users/serializers.py`, `src/users/views.py`, `src/users/models.py`,
`src/users/urls.py`) and proofs about its specified behaviour.

Strings are modelled as Lean `String` (lists of Unicode characters); the
character-class primitives used by the Python code (`\w`, `str.strip`,
`str.title`, `str.lower`) are modelled exactly on the ASCII range, which is
the range every theorem below quantifies over or instantiates at.
-/

namespace UserAuth

/-- ASCII check: every character of the string is an ASCII code point. -/
def allAscii (s : String) : Bool :=
  s.data.all (fun c => c.toNat < 128)

/-- Model of Python `str.strip()` (no argument): drop leading and trailing
whitespace.  Faithful on ASCII input (Python also strips some Unicode
spaces, outside the ASCII scope of this development). -/
def pyStrip (s : String) : String :=
  ⟨((s.data.dropWhile Char.isWhitespace).reverse.dropWhile Char.isWhitespace).reverse⟩

/-- Helper for `pyTitle`: walk the characters keeping a flag that records
whether the previous character was cased (a letter, on ASCII). -/
def pyTitleAux : Bool → List Char → List Char
  | _, [] => []
  | prevCased, c :: rest =>
      (if c.isAlpha then (if prevCased then c.toLower else c.toUpper) else c)
        :: pyTitleAux c.isAlpha rest

/-- Model of Python `str.title()`: the first cased character of every run of
letters is uppercased, the following letters are lowercased, all other
characters are kept.  Faithful on ASCII input. -/
def pyTitle (s : String) : String :=
  ⟨pyTitleAux false s.data⟩

/-- Model of Python `str.lower()`: lowercase every character.  Faithful on
ASCII input. -/
def pyLower (s : String) : String :=
  ⟨s.data.map Char.toLower⟩

/-- Model of Python's regex class `\w` (default Unicode mode), restricted to
the ASCII range on which this development is faithful: ASCII letters, ASCII
digits, and underscore.  (Python additionally admits non-ASCII word
characters; every theorem below is stated over, or instantiated at, ASCII
strings.) -/
def pyWordChar (c : Char) : Bool :=
  c.isAlphanum || c == '_'

/-- One character of the class `[\w.-]` used by
`RegisterSerializer.validate_username`. -/
def usernameClassChar (c : Char) : Bool :=
  pyWordChar c || c == '.' || c == '-'

/-- Model of Python `re.match(r'^[\w.-]+$', s) is not None`.

`re.match` anchors at the start of the string, and `$` matches either at the
end of the string or just before a newline that is the last character of the
string.  Since `'\n'` is not in the class `[\w.-]`, the match succeeds
exactly when the whole string is one or more class characters, or when the
string minus a single trailing newline is. -/
def reMatchUsername (s : String) : Bool :=
  let cs := s.data
  if cs.getLast? == some '\n' then
    !cs.dropLast.isEmpty && cs.dropLast.all usernameClassChar
  else
    !cs.isEmpty && cs.all usernameClassChar

/-- One character of the class `[A-Za-z0-9_.-]` named by the specification's
username rule (ASCII letters, digits, underscore, period, hyphen). -/
def specUsernameChar (c : Char) : Bool :=
  c.isAlpha || c.isDigit || c == '_' || c == '.' || c == '-'

/-- The specification's username pattern: the whole string is one or more
characters of `[A-Za-z0-9_.-]`. -/
def specMatchesUsername (s : String) : Bool :=
  !s.data.isEmpty && s.data.all specUsernameChar

/-- The specification's username pattern, amended with the trailing-newline
tolerance that Python's `$` anchor actually has. -/
def specMatchesUsernameOrTrailingNewline (s : String) : Bool :=
  specMatchesUsername s ||
    (s.data.getLast? == some '\n' && specMatchesUsername ⟨s.data.dropLast⟩)

/-- A stored account, after `src/users/models.py` (`User(AbstractUser)`):
username, email, first and last name, the encoded password field, the
optional profile picture, and the two automatic timestamps. -/
structure User where
  id : Nat
  username : String
  email : String
  first_name : String
  last_name : String
  password : String
  profile_picture : Option String
  created_at : Nat
  updated_at : Nat
  deriving Repr, DecidableEq

/-- The persistent user store: the list of existing accounts. -/
def Store := List User

/-- `User.objects.filter(username__iexact=value).exists()`: some stored
account has this username under case-insensitive comparison. -/
def usernameTakenIexact (store : List User) (value : String) : Bool :=
  store.any (fun u => pyLower u.username == pyLower value)

/-- `User.objects.filter(email__iexact=value).exists()`. -/
def emailTakenIexact (store : List User) (value : String) : Bool :=
  store.any (fun u => pyLower u.email == pyLower value)

/-- `RegisterSerializer.validate_username` (src/users/serializers.py
lines 74-111): reject when the value does not match `^[\w.-]+$`, when its
length is below 3 or above 30, or when the username is already taken
case-insensitively; otherwise return the value lowercased. -/
def validate_username (store : List User) (value : String) : Except String String :=
  if !(reMatchUsername value) then
    .error "Username can only contain letters, numbers, underscores, hyphens, and periods."
  else if value.length < 3 then
    .error "Username must be at least 3 characters long."
  else if value.length > 30 then
    .error "Username cannot exceed 30 characters."
  else if usernameTakenIexact store value then
    .error "A user with that username already exists."
  else
    .ok (pyLower value)

/-- `RegisterSerializer.validate_first_name` (src/users/serializers.py
lines 162-192): strip surrounding whitespace, reject the empty string and
lengths outside [2,50], and return the title-cased value. -/
def validate_first_name (value : String) : Except String String :=
  let v := pyStrip value
  if v.data.isEmpty then
    .error "First name is required."
  else if v.length < 2 then
    .error "First name must be at least 2 characters long."
  else if v.length > 50 then
    .error "First name cannot exceed 50 characters."
  else
    .ok (pyTitle v)

/-- `RegisterSerializer.validate_last_name` (src/users/serializers.py
lines 194-224): same checks as the first name. -/
def validate_last_name (value : String) : Except String String :=
  let v := pyStrip value
  if v.data.isEmpty then
    .error "Last name is required."
  else if v.length < 2 then
    .error "Last name must be at least 2 characters long."
  else if v.length > 50 then
    .error "Last name cannot exceed 50 characters."
  else
    .ok (pyTitle v)

/-! ### Password hashing

`user.set_password(password)` and `check_password` are delegated by the
source to the web framework's PBKDF2-SHA256 hasher.  The encoding shape
`algorithm$iterations$salt$digest` and the verification procedure (decode
the salt, re-encode the candidate password with it, compare) are modelled
exactly; the PBKDF2 digest itself, a vetted external primitive, is stood in
for by a concrete deterministic byte scramble — every theorem below relies
only on the digest being a deterministic function of password and salt. -/

/-- Sixteen lowercase letters used to spell salt and digest material, so
that neither ever contains the separator character of the encoding. -/
def hashAlphabet : List Char :=
  ['a', 'b', 'c', 'd', 'e', 'f', 'g', 'h', 'i', 'j', 'k', 'l', 'm', 'n', 'o', 'p']

/-- Letter for one nibble of salt or digest material. -/
def nibbleChar (n : Nat) : Char :=
  hashAlphabet.getD (n % 16) 'a'

/-- Salt derived from the framework's randomness, modelled as a 12-letter
string spelled from a natural-number seed. -/
def saltString (seed : Nat) : String :=
  ⟨(List.range 12).map (fun i => nibbleChar (seed / 16 ^ i))⟩

/-- Stand-in for the PBKDF2-SHA256 digest: two alphabet letters per input
character of password-plus-salt.  Deterministic in password and salt, which
is all the development uses. -/
def pbkdf2Digest (password salt : String) : String :=
  ⟨(password ++ salt).data.flatMap
    (fun c => [nibbleChar (c.toNat / 16), nibbleChar c.toNat])⟩

/-- The framework's iteration count (a per-version constant; the repository
does not configure it). -/
def hasherIterations : Nat := 390000

/-- `make_password`: the stored encoding `algorithm$iterations$salt$digest`
produced by `user.set_password`. -/
def encodePassword (password salt : String) : String :=
  "pbkdf2_sha256" ++ "$" ++ toString hasherIterations ++ "$" ++ salt ++ "$"
    ++ pbkdf2Digest password salt

/-- Split a character list at the first `'$'` (the hasher's
`encoded.split("$", 3)` applied one separator at a time). -/
def splitDollarAux : List Char → List Char × List Char
  | [] => ([], [])
  | c :: rest =>
      if c = '$' then ([], rest)
      else
        let p := splitDollarAux rest
        (c :: p.1, p.2)

/-- Split a string at its first `'$'`. -/
def splitDollar (s : String) : String × String :=
  let p := splitDollarAux s.data
  (⟨p.1⟩, ⟨p.2⟩)

/-- `check_password(password, encoded)`: decode algorithm, iterations and
salt from the stored encoding, re-encode the candidate password with the
decoded salt, and compare with the stored encoding. -/
def checkPassword (password encoded : String) : Bool :=
  let p1 := splitDollar encoded
  let p2 := splitDollar p1.2
  let p3 := splitDollar p2.2
  p1.1 == "pbkdf2_sha256" && encoded == encodePassword password p3.1

/-! ### Field-level processing and the registration pipeline

`RegisterSerializer` is a ModelSerializer; `is_valid()` runs every field
through the framework's `run_validation` (required check, blank check after
whitespace trimming, then the serializer's `validate_<field>` hook),
collecting each field's errors independently into a mapping, and only when
no field failed runs the object-level `validate` hook.  That framework
behaviour is embedded here around the repository's own validators. -/

/-- Framework `CharField.run_validation` for a required, non-blank,
whitespace-trimming field: a missing value and a blank-after-trim value are
field errors; otherwise the trimmed value is passed on. -/
def charFieldInput (v : Option String) : Except (List String) String :=
  match v with
  | none => .error ["This field is required."]
  | some s =>
      let t := pyStrip s
      if t.data.isEmpty then .error ["This field may not be blank."]
      else .ok t

/-- Modelled from the spec: Django's `validate_email` format check is
library code configured outside `src/`; the spec requires only
"RFC-valid address syntax".  Stood in for by the shape
`local@domain` with nonempty local part and a dot-containing, nonempty
domain.  No claim in this development depends on the exact email grammar. -/
def emailFormatOk (value : String) : Bool :=
  let p := splitOnAt value '@'
  p.1.length > 0 && p.2.length > 0 && p.2.data.contains '.' &&
    !(p.2.data.getLast? == some '.') && !(p.2.data.head? == some '.')
where
  /-- split at the first occurrence of a character, empty second part when
  the character is absent or repeated ambiguously: here, exactly one `'@'`
  is required, so reject strings with zero or several. -/
  splitOnAt (s : String) (sep : Char) : String × String :=
    if s.data.count sep = 1 then
      let l := s.data.takeWhile (fun c => c != sep)
      let r := (s.data.dropWhile (fun c => c != sep)).drop 1
      (⟨l⟩, ⟨r⟩)
    else ("", "")

/-- `RegisterSerializer.validate_email` (src/users/serializers.py lines
113-140): format check, case-insensitive uniqueness check, lowercase
normalization. -/
def validate_email (store : List User) (value : String) : Except String String :=
  if !(emailFormatOk value) then
    .error "Please enter a valid email address."
  else if emailTakenIexact store value then
    .error "A user with this email address already exists."
  else
    .ok (pyLower value)

/-- Modelled from the spec: the password strength policy
(`django.contrib.auth.password_validation.validate_password`, configured by
`AUTH_PASSWORD_VALIDATORS` in `settings.py`, which is not under `src/`).
Per the spec it checks a minimum length, that the password is not purely
numeric and not a common password, and returns all violation messages
together.  (The similarity check is skipped because the serializer calls
the evaluator without a user object.) -/
def passwordPolicyMessages (value : String) : List String :=
  (if value.length < 8 then
    ["This password is too short. It must contain at least 8 characters."]
   else []) ++
  (if commonPasswords.contains (pyLower value) then
    ["This password is too common."]
   else []) ++
  (if !value.data.isEmpty && value.data.all Char.isDigit then
    ["This password is entirely numeric."]
   else [])
where
  /-- a stand-in sample of the evaluator's common-password list. -/
  commonPasswords : List String :=
    ["password", "12345678", "qwerty123", "password1", "letmein1"]

/-- `RegisterSerializer.validate_password` (src/users/serializers.py lines
142-160): delegate to the policy evaluator, turning its message list into a
field error. -/
def validate_password (value : String) : Except (List String) String :=
  match passwordPolicyMessages value with
  | [] => .ok value
  | msgs => .error msgs

/-- Lift a single-message validator into the per-field message-list shape
the framework collects. -/
def liftFieldError (r : Except String String) : Except (List String) String :=
  match r with
  | .error m => .error [m]
  | .ok v => .ok v

/-- A registration request body: each of the serializer's six writable
fields is present or absent. -/
structure RegisterPayload where
  username : Option String
  email : Option String
  first_name : Option String
  last_name : Option String
  password : Option String
  password2 : Option String
  deriving Repr, DecidableEq

/-- The validated data produced when every field passes. -/
structure ValidatedData where
  username : String
  email : String
  first_name : String
  last_name : String
  password : String
  password2 : String
  deriving Repr, DecidableEq

/-- The full field-level run of the `username` field: framework input
processing, then `validate_username`. -/
def usernameCheck (store : List User) (p : RegisterPayload) :
    Except (List String) String :=
  charFieldInput p.username >>= fun t => liftFieldError (validate_username store t)

/-- The full field-level run of the `email` field. -/
def emailCheck (store : List User) (p : RegisterPayload) :
    Except (List String) String :=
  charFieldInput p.email >>= fun t => liftFieldError (validate_email store t)

/-- The full field-level run of the `first_name` field. -/
def firstNameCheck (p : RegisterPayload) : Except (List String) String :=
  charFieldInput p.first_name >>= fun t => liftFieldError (validate_first_name t)

/-- The full field-level run of the `last_name` field. -/
def lastNameCheck (p : RegisterPayload) : Except (List String) String :=
  charFieldInput p.last_name >>= fun t => liftFieldError (validate_last_name t)

/-- The full field-level run of the `password` field. -/
def passwordCheck (p : RegisterPayload) : Except (List String) String :=
  charFieldInput p.password >>= fun t => validate_password t

/-- The full field-level run of the `password2` field (no per-field hook). -/
def password2Check (p : RegisterPayload) : Except (List String) String :=
  charFieldInput p.password2

/-- One entry of the collected error mapping: a failing field contributes
its name with its full message list, a passing field contributes nothing. -/
def errEntry (name : String) (r : Except (List String) String) :
    List (String × List String) :=
  match r with
  | .error msgs => [(name, msgs)]
  | .ok _ => []

/-- The collected field-error mapping (framework `serializer.errors`): one
entry per failing field, in field order, each carrying that field's full
message list — every field is checked independently and all failures are
collected. -/
def fieldErrors (store : List User) (p : RegisterPayload) :
    List (String × List String) :=
  errEntry "username" (usernameCheck store p) ++
  errEntry "email" (emailCheck store p) ++
  errEntry "first_name" (firstNameCheck p) ++
  errEntry "last_name" (lastNameCheck p) ++
  errEntry "password" (passwordCheck p) ++
  errEntry "password2" (password2Check p)

/-- `RegisterSerializer.validate` (src/users/serializers.py lines 226-247):
object-level cross-field check, run by the framework only when no field
failed; a mismatch of the two (truthy) passwords is reported against
`password2`. -/
def crossFieldValidate (vd : ValidatedData) :
    Except (List (String × List String)) ValidatedData :=
  if vd.password ≠ "" ∧ vd.password2 ≠ "" ∧ vd.password ≠ vd.password2 then
    .error [("password2", ["Passwords don\x27t match."])]
  else
    .ok vd

/-- Framework `serializer.is_valid()`: collect all field-level errors; when
none, assemble the validated data and run the object-level hook. -/
def runValidation (store : List User) (p : RegisterPayload) :
    Except (List (String × List String)) ValidatedData :=
  match usernameCheck store p, emailCheck store p, firstNameCheck p,
        lastNameCheck p, passwordCheck p, password2Check p with
  | .ok u, .ok e, .ok f, .ok l, .ok pw, .ok pw2 =>
      crossFieldValidate ⟨u, e, f, l, pw, pw2⟩
  | _, _, _, _, _, _ => .error (fieldErrors store p)

/-- `RegisterSerializer.create` (src/users/serializers.py lines 249-276):
drop `password2`, pop the plaintext password, build the user from the
remaining validated fields, hash-and-set the password, save.  The store
assigns the numeric id and the clock stamps both timestamps. -/
def createUser (store : List User) (vd : ValidatedData) (seed now : Nat) : User :=
  { id := store.length + 1,
    username := vd.username,
    email := vd.email,
    first_name := vd.first_name,
    last_name := vd.last_name,
    password := encodePassword vd.password (saltString seed),
    profile_picture := none,
    created_at := now,
    updated_at := now }

/-- `User.get_full_name` (src/users/models.py lines 80-87). -/
def get_full_name (u : User) : String :=
  pyStrip (u.first_name ++ " " ++ u.last_name)

/-- `UserSerializer` (src/users/serializers.py lines 279-320): the profile
serialization, returning exactly the listed fields as key-value pairs —
the password field is not among them. -/
def serializeUser (u : User) : List (String × String) :=
  [ ("id", toString u.id),
    ("username", u.username),
    ("email", u.email),
    ("first_name", u.first_name),
    ("last_name", u.last_name),
    ("full_name", get_full_name u),
    ("profile_picture", u.profile_picture.getD ""),
    ("created_at", toString u.created_at),
    ("updated_at", toString u.updated_at) ]

/-- Outcome of the registration endpoint: 201 with the serialized user, or
400 with the per-field error mapping. -/
inductive RegisterOutcome where
  | created (body : List (String × String))
  | badRequest (errors : List (String × List String))
  deriving Repr, DecidableEq

/-- HTTP status of a registration outcome. -/
def RegisterOutcome.status : RegisterOutcome → Nat
  | .created _ => 201
  | .badRequest _ => 400

/-- `RegisterView.create` (src/users/views.py lines 51-94): validate; on
success save the user and return 201 with the `UserSerializer` body; on a
validation failure return 400 with `serializer.errors`.  Returns the
response together with the resulting store. -/
def register (store : List User) (p : RegisterPayload) (seed now : Nat) :
    RegisterOutcome × List User :=
  match runValidation store p with
  | .error errs => (.badRequest errs, store)
  | .ok vd =>
      let u := createUser store vd seed now
      (.created (serializeUser u), store ++ [u])

/-! ### Tokens and the token-guarded endpoints

The JWT pair, its verification, and the blacklist are provided by the
third-party JWT library that `src/users/views.py` and `src/users/urls.py`
call into, configured by `settings.py` (not under `src/`).  A token is
modelled as either a well-signed payload (user id, expiry, token id `jti`,
token type) or an undecodable/badly-signed string; the signing primitive
itself is delegated cryptography, so signature validity is carried by the
constructor.  Per the library's documented verification of refresh tokens,
a well-signed, unexpired refresh token is still rejected when its `jti` is
on the blacklist. -/

/-- Claims carried by a well-signed token. -/
structure TokenPayload where
  user_id : Nat
  exp : Nat
  jti : Nat
  token_type : String
  deriving Repr, DecidableEq

/-- A presented token: well-signed with a payload, or malformed (not
decodable, or its signature does not verify). -/
inductive Jwt where
  | signed (p : TokenPayload)
  | malformed (raw : String)
  deriving Repr, DecidableEq

/-- The wire text of a token (a stand-in encoding: the source only ever
tests it for truthiness). -/
def Jwt.raw : Jwt → String
  | .signed p => "jwt." ++ toString p.jti ++ ".sig"
  | .malformed s => s

/-- The blacklist: the set of revoked refresh-token identifiers. -/
def Blacklist := List Nat

/-- Library access-token verification: a malformed token, an expired
token, and a token of the wrong type are all `TokenError`s. -/
def verifyAccessToken (now : Nat) : Jwt → Except String TokenPayload
  | .malformed _ => .error "Token is invalid or expired"
  | .signed p =>
      if p.exp ≤ now then .error "Token is invalid or expired"
      else if p.token_type ≠ "access" then .error "Token has wrong type"
      else .ok p

/-- Library refresh-token verification (`RefreshToken(token)`): like access
verification, and additionally a blacklisted `jti` is a `TokenError`. -/
def verifyRefreshToken (now : Nat) (blacklist : List Nat) :
    Jwt → Except String TokenPayload
  | .malformed _ => .error "Token is invalid or expired"
  | .signed p =>
      if p.exp ≤ now then .error "Token is invalid or expired"
      else if p.token_type ≠ "refresh" then .error "Token has wrong type"
      else if blacklist.contains p.jti then .error "Token is blacklisted"
      else .ok p

/-- An HTTP response: status code and a flat key-value JSON body. -/
structure HttpResponse where
  status : Nat
  body : List (String × String)
  deriving Repr, DecidableEq

/-- Framework authentication of a request (`IsAuthenticated` over the JWT
authentication class): no credentials, a failed token verification, or an
unknown user all leave the request unauthenticated. -/
def authenticateRequest (store : List User) (now : Nat) :
    Option Jwt → Option User
  | none => none
  | some t =>
      match verifyAccessToken now t with
      | .error _ => none
      | .ok p => store.find? (fun u => u.id == p.user_id)

/-- The 401 response the framework returns for an unauthenticated request
to a protected endpoint. -/
def unauthorizedResponse : HttpResponse :=
  { status := 401,
    body := [("detail", "Authentication credentials were not provided.")] }

/-- `ProfileView.retrieve` (src/users/views.py lines 124-148): serialize
the authenticated user and answer 200.  The handler's `except` arm answers
500, but every operation in the `try` body is total in this model, so the
arm is represented by the absence of any other outcome. -/
def profileRetrieve (u : User) : HttpResponse :=
  { status := 200, body := serializeUser u }

/-- The profile endpoint (`ProfileView`, permission `IsAuthenticated`):
the framework answers 401 before the handler runs unless authentication
succeeds. -/
def profileEndpoint (store : List User) (now : Nat) (auth : Option Jwt) :
    HttpResponse :=
  match authenticateRequest store now auth with
  | none => unauthorizedResponse
  | some u => profileRetrieve u

/-- `LogoutView.post` (src/users/views.py lines 172-216), behind
`IsAuthenticated`: 401 before the body runs when the access token is
missing or invalid; 400 when the refresh value is absent or falsy, decided
before any token is constructed; `RefreshToken(refresh_token)` raising a
`TokenError` (malformed, expired, or already blacklisted) answers 400; on
success the token's `jti` joins the blacklist and the view answers 200.
Returns the response with the resulting blacklist. -/
def logoutEndpoint (store : List User) (blacklist : List Nat) (now : Nat)
    (auth : Option Jwt) (refresh : Option Jwt) : HttpResponse × List Nat :=
  match authenticateRequest store now auth with
  | none => (unauthorizedResponse, blacklist)
  | some _ =>
      match refresh with
      | none =>
          ({ status := 400, body := [("error", "Refresh token is required.")] },
           blacklist)
      | some t =>
          if t.raw = "" then
            ({ status := 400, body := [("error", "Refresh token is required.")] },
             blacklist)
          else
            match verifyRefreshToken now blacklist t with
            | .error _ =>
                ({ status := 400, body := [("error", "Invalid or expired token.")] },
                 blacklist)
            | .ok p =>
                ({ status := 200, body := [("message", "Successfully logged out.")] },
                 blacklist ++ [p.jti])

/-- Modelled from the spec: the token-refresh endpoint is the JWT
library's `TokenRefreshView` (wired in src/users/urls.py line 35) together
with its `settings.py` configuration, neither of which is under `src/`.
Per the spec it answers 200 with a new access token for a valid refresh
token and fails with one identical 401 response whether the token is
malformed, expired, or blacklisted. -/
def refreshEndpoint (blacklist : List Nat) (now : Nat)
    (refresh : Option Jwt) : HttpResponse :=
  match refresh with
  | none => { status := 400, body := [("refresh", "This field is required.")] }
  | some t =>
      match verifyRefreshToken now blacklist t with
      | .error _ =>
          { status := 401,
            body := [("detail", "Token is invalid or expired"),
                     ("code", "token_not_valid")] }
      | .ok p =>
          { status := 200,
            body := [("access", "jwt.access." ++ toString p.user_id)] }

/-! ### Concrete fixtures used by witnesses and counterexamples -/

/-- A stored account (the test suite's `testuser`). -/
def demoUser : User :=
  { id := 1,
    username := "testuser",
    email := "test@example.com",
    first_name := "Test",
    last_name := "User",
    password := encodePassword "TestPass123!" (saltString 1),
    profile_picture := none,
    created_at := 0,
    updated_at := 0 }

/-- A well-signed unexpired access token for `demoUser`. -/
def demoAccess : Jwt :=
  .signed { user_id := 1, exp := 100, jti := 8, token_type := "access" }

/-- A well-signed unexpired refresh token for `demoUser`. -/
def demoRefresh : Jwt :=
  .signed { user_id := 1, exp := 100, jti := 7, token_type := "refresh" }

/-- The spec's concrete registration scenario (spec section 8). -/
def specScenarioPayload : RegisterPayload :=
  { username := some "newuser",
    email := some "newuser@example.com",
    first_name := some "New",
    last_name := some "User",
    password := some "SecurePass123!",
    password2 := some "SecurePass123!" }

/-- The validated data the spec scenario produces. -/
def specScenarioValidated : ValidatedData :=
  { username := "newuser",
    email := "newuser@example.com",
    first_name := "New",
    last_name := "User",
    password := "SecurePass123!",
    password2 := "SecurePass123!" }

/-- A payload whose username fails field validation and whose two distinct
passwords each pass their own field validation. -/
def mismatchShortUserPayload : RegisterPayload :=
  { username := some "ab",
    email := some "user@example.com",
    first_name := some "New",
    last_name := some "User",
    password := some "Str0ngPass!xyz",
    password2 := some "Differ3ntPass!" }

/-- A payload with two independently failing fields (short username and
short first name) and all other fields valid. -/
def twoFailPayload : RegisterPayload :=
  { username := some "ab",
    email := some "user@example.com",
    first_name := some "x",
    last_name := some "User",
    password := some "Str0ngPass!xyz",
    password2 := some "Str0ngPass!xyz" }

/-- A payload that is valid except that the two passwords differ. -/
def mismatchOnlyPayload : RegisterPayload :=
  { username := some "newuser",
    email := some "newuser@example.com",
    first_name := some "New",
    last_name := some "User",
    password := some "Str0ngPass!xyz",
    password2 := some "Differ3ntPass!" }

/-! ## Theorems -/

/-- The class `[\w.-]` restricted to ASCII coincides with the class
`[A-Za-z0-9_.-]` named by the spec. -/
theorem usernameClassChar_eq_spec : usernameClassChar = specUsernameChar := by
  funext c
  simp [usernameClassChar, specUsernameChar, pyWordChar, Char.isAlphanum,
    Bool.or_assoc]

/-- `re.match(r'^[\w.-]+$', s)` succeeds exactly when the whole string, or
the string minus one trailing newline, is one or more class characters. -/
theorem reMatchUsername_eq (s : String) :
    reMatchUsername s = specMatchesUsernameOrTrailingNewline s := by
  unfold reMatchUsername specMatchesUsernameOrTrailingNewline specMatchesUsername
  have hnl : specUsernameChar '\n' = false := by decide
  by_cases hl : s.data.getLast? = some '\n'
  · obtain ⟨l2, hl2⟩ := List.getLast?_eq_some_iff.mp hl
    rw [hl2]
    simp [List.all_append, usernameClassChar_eq_spec, hnl]
  · simp [hl, usernameClassChar_eq_spec]

/-- C1 (counterexample): `validate_username` accepts the username
`"abc\n"` — Python's `$` anchor matches before a trailing newline — yet
`"abc\n"` does not match the spec's pattern `[A-Za-z0-9_.-]+`, so
acceptance is not equivalent to the spec's stated condition. -/
theorem c1_username_regex_counterexample :
    validate_username [] "abc\n" = .ok "abc\n" ∧
    specMatchesUsername "abc\n" = false ∧
    3 ≤ ("abc\n" : String).length ∧ ("abc\n" : String).length ≤ 30 ∧
    usernameTakenIexact [] "abc\n" = false := by
  exact ⟨rfl, by decide, by decide, by decide, by decide⟩

/-- C1 (amended): over ASCII input, `validate_username` accepts exactly
the strings that match `[A-Za-z0-9_.-]+` — optionally followed by one
trailing newline, which Python's `$` anchor tolerates — whose full length
lies in [3,30] and which are not already taken case-insensitively; every
accepted username is normalized to lowercase. -/
theorem c1_username_validation (store : List User) (s : String)
    (_ascii : allAscii s = true) :
    ((validate_username store s).isOk = true ↔
      (specMatchesUsernameOrTrailingNewline s = true ∧ 3 ≤ s.length ∧
        s.length ≤ 30 ∧ usernameTakenIexact store s = false)) ∧
    ∀ r, validate_username store s = .ok r → r = pyLower s := by
  constructor
  · unfold validate_username
    rw [reMatchUsername_eq]
    constructor
    · intro hok
      split at hok
      · simp [Except.isOk, Except.toBool] at hok
      · rename_i h2
        split at hok
        · simp [Except.isOk, Except.toBool] at hok
        · rename_i h3
          split at hok
          · simp [Except.isOk, Except.toBool] at hok
          · rename_i h4
            split at hok
            · simp [Except.isOk, Except.toBool] at hok
            · rename_i h5
              exact ⟨by simpa using h2, by omega, by omega, by simpa using h5⟩
    · rintro ⟨h1, h2, h3, h4⟩
      have hn3 : ¬ s.length < 3 := by omega
      have hn30 : ¬ s.length > 30 := by omega
      simp [h1, h4, hn3, hn30, Except.isOk, Except.toBool]
  · intro r hr
    unfold validate_username at hr
    split at hr
    · exact absurd hr (by simp)
    · split at hr
      · exact absurd hr (by simp)
      · split at hr
        · exact absurd hr (by simp)
        · split at hr
          · exact absurd hr (by simp)
          · injection hr with h1
            exact h1.symm

/-- C1 (witness): the amended acceptance condition at the concrete ASCII
input `"ab-c.9\n"` over the empty store. -/
theorem c1_username_validation_witness :
    (validate_username [] "ab-c.9\n").isOk = true :=
  (c1_username_validation [] "ab-c.9\n" (by decide)).1.mpr
    ⟨by decide, by decide, by decide, by decide⟩

/-- C6: first-name and last-name validation strips surrounding whitespace,
accepts exactly when the trimmed length is between 2 and 50 inclusive
(an empty-after-trim value is an error, via the dedicated required-message
branch), and normalizes the accepted value to title case. -/
theorem c6_name_validation (v : String) :
    ((validate_first_name v).isOk = true ↔
      2 ≤ (pyStrip v).length ∧ (pyStrip v).length ≤ 50) ∧
    (∀ r, validate_first_name v = .ok r → r = pyTitle (pyStrip v)) ∧
    ((validate_last_name v).isOk = true ↔
      2 ≤ (pyStrip v).length ∧ (pyStrip v).length ≤ 50) ∧
    (∀ r, validate_last_name v = .ok r → r = pyTitle (pyStrip v)) := by
  have hlen : (pyStrip v).length = (pyStrip v).data.length := rfl
  refine ⟨⟨?_, ?_⟩, ?_, ⟨?_, ?_⟩, ?_⟩
  · intro hok
    simp only [validate_first_name] at hok
    split at hok
    · simp [Except.isOk, Except.toBool] at hok
    · rename_i he
      rw [List.isEmpty_iff_length_eq_zero] at he
      split at hok
      · simp [Except.isOk, Except.toBool] at hok
      · rename_i h2
        split at hok
        · simp [Except.isOk, Except.toBool] at hok
        · rename_i h50
          omega
  · rintro ⟨h2, h50⟩
    have he : ((pyStrip v).data.isEmpty) = false := by
      have hne : (pyStrip v).data.length ≠ 0 := by rw [← hlen]; omega
      simp only [Bool.eq_false_iff, ne_eq, List.isEmpty_iff_length_eq_zero]
      exact hne
    have hn2 : ¬ (pyStrip v).length < 2 := by omega
    have hn50 : ¬ (pyStrip v).length > 50 := by omega
    simp [validate_first_name, he, hn2, hn50, Except.isOk, Except.toBool]
  · intro r hr
    simp only [validate_first_name] at hr
    split at hr
    · exact absurd hr (by simp)
    · split at hr
      · exact absurd hr (by simp)
      · split at hr
        · exact absurd hr (by simp)
        · injection hr with h1
          exact h1.symm
  · intro hok
    simp only [validate_last_name] at hok
    split at hok
    · simp [Except.isOk, Except.toBool] at hok
    · rename_i he
      rw [List.isEmpty_iff_length_eq_zero] at he
      split at hok
      · simp [Except.isOk, Except.toBool] at hok
      · rename_i h2
        split at hok
        · simp [Except.isOk, Except.toBool] at hok
        · rename_i h50
          omega
  · rintro ⟨h2, h50⟩
    have he : ((pyStrip v).data.isEmpty) = false := by
      have hne : (pyStrip v).data.length ≠ 0 := by rw [← hlen]; omega
      simp only [Bool.eq_false_iff, ne_eq, List.isEmpty_iff_length_eq_zero]
      exact hne
    have hn2 : ¬ (pyStrip v).length < 2 := by omega
    have hn50 : ¬ (pyStrip v).length > 50 := by omega
    simp [validate_last_name, he, hn2, hn50, Except.isOk, Except.toBool]
  · intro r hr
    simp only [validate_last_name] at hr
    split at hr
    · exact absurd hr (by simp)
    · split at hr
      · exact absurd hr (by simp)
      · split at hr
        · exact absurd hr (by simp)
        · injection hr with h1
          exact h1.symm

/-- A value accepted by the framework field input is never the empty
string (the blank check has already rejected it). -/
theorem charFieldInput_ok_ne_empty (v : Option String) (t : String)
    (h : charFieldInput v = .ok t) : t ≠ "" := by
  unfold charFieldInput at h
  cases v with
  | none => exact absurd h (by simp)
  | some s =>
      simp only [] at h
      split at h
      · exact absurd h (by simp)
      · rename_i he
        injection h with h1
        intro hemp
        rw [h1, hemp] at he
        simp at he

/-- The password field check returns the processed input unchanged, and
that value is nonempty. -/
theorem passwordCheck_ok (p : RegisterPayload) (pw : String)
    (h : passwordCheck p = .ok pw) :
    charFieldInput p.password = .ok pw ∧ pw ≠ "" := by
  unfold passwordCheck at h
  cases hc : charFieldInput p.password with
  | error e =>
      rw [hc] at h
      replace h : (Except.error e : Except (List String) String) = .ok pw := h
      exact absurd h (by simp)
  | ok t =>
      rw [hc] at h
      replace h : validate_password t = .ok pw := h
      unfold validate_password at h
      split at h
      · injection h with h1
        exact ⟨congrArg Except.ok h1, h1 ▸ charFieldInput_ok_ne_empty _ _ hc⟩
      · exact absurd h (by simp)

/-- An error entry is empty exactly when its check passed. -/
theorem errEntry_eq_nil (n : String) (r : Except (List String) String)
    (h : errEntry n r = []) : ∃ v, r = .ok v := by
  cases r with
  | error m => simp [errEntry] at h
  | ok v => exact ⟨v, rfl⟩

/-- Membership in one error entry pins down both the name and the check's
failure messages. -/
theorem mem_errEntry_iff (n n' : String) (m : List String)
    (r : Except (List String) String) :
    ((n, m) ∈ errEntry n' r) ↔ (n = n' ∧ r = .error m) := by
  cases r with
  | error m' =>
      simp only [errEntry, List.mem_singleton, Prod.mk.injEq, Except.error.injEq]
      constructor
      · rintro ⟨h1, h2⟩; exact ⟨h1, h2.symm⟩
      · rintro ⟨h1, h2⟩; exact ⟨h1, h2.symm⟩
  | ok v => simp [errEntry]

/-- C10: registration is atomic on failure — whenever the endpoint answers
400, the user store is returned unchanged: no account was created or
modified. -/
theorem c10_registration_atomic_on_failure (store : List User)
    (p : RegisterPayload) (seed now : Nat)
    (h : (register store p seed now).1.status = 400) :
    (register store p seed now).2 = store := by
  unfold register at h ⊢
  cases hv : runValidation store p with
  | error errs => rfl
  | ok vd => rw [hv] at h; simp [RegisterOutcome.status] at h

/-- C10 (witness): the concrete payload with the short username is refused
with a 400 and leaves the empty store empty. -/
theorem c10_registration_atomic_witness :
    (register [] mismatchShortUserPayload 0 0).2 = ([] : List User) :=
  c10_registration_atomic_on_failure [] mismatchShortUserPayload 0 0 rfl

/-- C4: when any field fails, the 400 body is exactly the collected
per-field error mapping — each of the six fields contributes its own entry
independently of the others, an entry appears for a field precisely when
that field's check fails, and it carries that field's full message list. -/
theorem c4_field_errors_collected (store : List User) (p : RegisterPayload)
    (seed now : Nat) (h : fieldErrors store p ≠ []) :
    (register store p seed now).1 = .badRequest (fieldErrors store p) ∧
    (∀ msgs, (("username", msgs) ∈ fieldErrors store p ↔
      usernameCheck store p = .error msgs)) ∧
    (∀ msgs, (("email", msgs) ∈ fieldErrors store p ↔
      emailCheck store p = .error msgs)) ∧
    (∀ msgs, (("first_name", msgs) ∈ fieldErrors store p ↔
      firstNameCheck p = .error msgs)) ∧
    (∀ msgs, (("last_name", msgs) ∈ fieldErrors store p ↔
      lastNameCheck p = .error msgs)) ∧
    (∀ msgs, (("password", msgs) ∈ fieldErrors store p ↔
      passwordCheck p = .error msgs)) ∧
    (∀ msgs, (("password2", msgs) ∈ fieldErrors store p ↔
      password2Check p = .error msgs)) := by
  constructor
  · unfold register runValidation
    rcases hu : usernameCheck store p with eu | vu <;>
    rcases he : emailCheck store p with ee | ve <;>
    rcases hf : firstNameCheck p with ef | vf <;>
    rcases hl : lastNameCheck p with el | vl <;>
    rcases hp : passwordCheck p with ep | vp <;>
    rcases h2 : password2Check p with e2 | v2 <;>
    simp_all [fieldErrors, errEntry]
  · refine ⟨?_, ?_, ?_, ?_, ?_, ?_⟩ <;>
    · intro msgs
      simp only [fieldErrors, List.mem_append, mem_errEntry_iff]
      simp

/-- C4 (witness): with a short username and a short first name in one
payload, the 400 body carries both fields' errors — neither hides the
other. -/
theorem c4_field_errors_collected_witness :
    (register [] twoFailPayload 0 0).1 = .badRequest (fieldErrors [] twoFailPayload) ∧
    ("username", ["Username must be at least 3 characters long."]) ∈
      fieldErrors [] twoFailPayload ∧
    ("first_name", ["First name must be at least 2 characters long."]) ∈
      fieldErrors [] twoFailPayload :=
  ⟨(c4_field_errors_collected [] twoFailPayload 0 0 (by decide)).1,
   ((c4_field_errors_collected [] twoFailPayload 0 0 (by decide)).2.1
     ["Username must be at least 3 characters long."]).mpr rfl,
   ((c4_field_errors_collected [] twoFailPayload 0 0 (by decide)).2.2.2.1
     ["First name must be at least 2 characters long."]).mpr rfl⟩

/-- C5 (counterexample): a payload in which password and confirmation are
both present and differ (each valid on its own) but the username fails its
field check: registration fails, yet no error at all is reported under
`password2` — the cross-field mismatch check never ran. -/
theorem c5_mismatch_unreported_counterexample :
    mismatchShortUserPayload.password = some "Str0ngPass!xyz" ∧
    mismatchShortUserPayload.password2 = some "Differ3ntPass!" ∧
    ("Str0ngPass!xyz" : String) ≠ "Differ3ntPass!" ∧
    (register [] mismatchShortUserPayload 0 0).1 =
      .badRequest [("username", ["Username must be at least 3 characters long."])] ∧
    ((fieldErrors [] mismatchShortUserPayload).map Prod.fst).contains "password2"
      = false :=
  ⟨rfl, rfl, by decide, rfl, by decide⟩

/-- C5 (amended): when every field passes its own field-level validation
and the two validated passwords are not byte-equal, registration fails and
the sole error is reported under the confirmation field key `password2`;
when some field fails field-level validation, the cross-field check does
not run and the 400 body holds just the field errors. -/
theorem c5_password_mismatch_reported (store : List User)
    (p : RegisterPayload) (seed now : Nat) (pw pw2 : String)
    (hfe : fieldErrors store p = [])
    (hpw : passwordCheck p = .ok pw) (hpw2 : password2Check p = .ok pw2)
    (hne : pw ≠ pw2) :
    (register store p seed now).1 =
      .badRequest [("password2", ["Passwords don\x27t match."])] := by
  unfold fieldErrors at hfe
  rw [List.append_eq_nil] at hfe
  obtain ⟨hfe5, h6⟩ := hfe
  rw [List.append_eq_nil] at hfe5
  obtain ⟨hfe4, h5⟩ := hfe5
  rw [List.append_eq_nil] at hfe4
  obtain ⟨hfe3, h4⟩ := hfe4
  rw [List.append_eq_nil] at hfe3
  obtain ⟨hfe2, h3⟩ := hfe3
  rw [List.append_eq_nil] at hfe2
  obtain ⟨h1, h2⟩ := hfe2
  obtain ⟨vu, hu⟩ := errEntry_eq_nil _ _ h1
  obtain ⟨ve, he⟩ := errEntry_eq_nil _ _ h2
  obtain ⟨vf, hf⟩ := errEntry_eq_nil _ _ h3
  obtain ⟨vl, hl⟩ := errEntry_eq_nil _ _ h4
  have hpwne : pw ≠ "" := (passwordCheck_ok p pw hpw).2
  have hpw2ne : pw2 ≠ "" := charFieldInput_ok_ne_empty _ _ hpw2
  have hrv : runValidation store p =
      .error [("password2", ["Passwords don\x27t match."])] := by
    unfold runValidation
    rw [hu, he, hf, hl, hpw, hpw2]
    show crossFieldValidate ⟨vu, ve, vf, vl, pw, pw2⟩ = _
    unfold crossFieldValidate
    rw [if_pos]
    exact ⟨hpwne, hpw2ne, hne⟩
  unfold register
  rw [hrv]

/-- C5 (witness): the concrete payload that is valid except for the
password mismatch is refused with the mismatch reported under
`password2`. -/
theorem c5_password_mismatch_reported_witness :
    (register [] mismatchOnlyPayload 0 0).1 =
      .badRequest [("password2", ["Passwords don\x27t match."])] :=
  c5_password_mismatch_reported [] mismatchOnlyPayload 0 0
    "Str0ngPass!xyz" "Differ3ntPass!" rfl rfl rfl (by decide)

/-- A well-signed token's wire text is never empty. -/
theorem signedRaw_ne_empty (p : TokenPayload) : Jwt.raw (.signed p) ≠ "" := by
  unfold Jwt.raw
  intro h
  have hl := congrArg String.length h
  rw [String.length_append, String.length_append] at hl
  have h4 : ("jwt." : String).length = 4 := rfl
  have hs : (".sig" : String).length = 4 := rfl
  have h0 : ("" : String).length = 0 := rfl
  omega

/-- C7: a profile request with no Authorization header, with a malformed
bearer token, or with a validly-signed-but-expired access token is
answered 401 by the authentication layer before the handler runs; none of
these inputs can reach the handler's 500 branch. -/
theorem c7_profile_always_401_never_500 (store : List User) (now : Nat) :
    ((profileEndpoint store now none).status = 401 ∧
      (profileEndpoint store now none).status ≠ 500) ∧
    (∀ raw, (profileEndpoint store now (some (.malformed raw))).status = 401 ∧
      (profileEndpoint store now (some (.malformed raw))).status ≠ 500) ∧
    (∀ p : TokenPayload, p.exp ≤ now →
      (profileEndpoint store now (some (.signed p))).status = 401 ∧
      (profileEndpoint store now (some (.signed p))).status ≠ 500) := by
  have hnone : profileEndpoint store now none = unauthorizedResponse := rfl
  refine ⟨⟨by rw [hnone]; rfl, by rw [hnone]; decide⟩, fun raw => ?_,
    fun p hexp => ?_⟩
  · have h : profileEndpoint store now (some (.malformed raw)) =
        unauthorizedResponse := rfl
    exact ⟨by rw [h]; rfl, by rw [h]; decide⟩
  · have h : profileEndpoint store now (some (.signed p)) =
        unauthorizedResponse := by
      simp only [profileEndpoint, authenticateRequest, verifyAccessToken]
      rw [if_pos hexp]
    exact ⟨by rw [h]; rfl, by rw [h]; decide⟩

/-- C7 (witness): the expired-token case at a concrete expired access
token. -/
theorem c7_profile_always_401_never_500_witness :
    (profileEndpoint [demoUser] 200 (some demoAccess)).status = 401 :=
  ((c7_profile_always_401_never_500 [demoUser] 200).2.2
    { user_id := 1, exp := 100, jti := 8, token_type := "access" }
    (by decide)).1

/-- C8: the logout endpoint answers 401 (leaving the blacklist untouched)
when the access token is missing or malformed; 400 with the blacklist
untouched when the refresh value is missing or blank — decided before any
blacklist operation; 400 when the refresh token is malformed; and 200 on a
valid fresh refresh token, whose id joins the blacklist. -/
theorem c8_logout_status_codes (store : List User) (blacklist : List Nat)
    (now : Nat) :
    (∀ refresh, logoutEndpoint store blacklist now none refresh =
      (unauthorizedResponse, blacklist)) ∧
    (∀ raw refresh,
      logoutEndpoint store blacklist now (some (.malformed raw)) refresh =
        (unauthorizedResponse, blacklist)) ∧
    (∀ auth u, authenticateRequest store now auth = some u →
      (logoutEndpoint store blacklist now auth none).1.status = 400 ∧
      (logoutEndpoint store blacklist now auth none).2 = blacklist) ∧
    (∀ auth u raw, authenticateRequest store now auth = some u → raw ≠ "" →
      (logoutEndpoint store blacklist now auth
        (some (.malformed raw))).1.status = 400 ∧
      (logoutEndpoint store blacklist now auth
        (some (.malformed raw))).2 = blacklist) ∧
    (∀ auth u (tp : TokenPayload), authenticateRequest store now auth = some u →
      tp.token_type = "refresh" → now < tp.exp →
      blacklist.contains tp.jti = false →
      (logoutEndpoint store blacklist now auth
        (some (.signed tp))).1.status = 200 ∧
      (logoutEndpoint store blacklist now auth
        (some (.signed tp))).2 = blacklist ++ [tp.jti]) := by
  refine ⟨?_, ?_, ?_, ?_, ?_⟩
  · intro refresh
    unfold logoutEndpoint authenticateRequest
    rfl
  · intro raw refresh
    unfold logoutEndpoint authenticateRequest verifyAccessToken
    rfl
  · intro auth u hauth
    unfold logoutEndpoint
    rw [hauth]
    exact ⟨rfl, rfl⟩
  · intro auth u raw hauth hraw
    have h : logoutEndpoint store blacklist now auth (some (.malformed raw)) =
        ({ status := 400, body := [("error", "Invalid or expired token.")] },
         blacklist) := by
      simp only [logoutEndpoint, hauth, Jwt.raw]
      rw [if_neg hraw]
      rfl
    rw [h]
    exact ⟨rfl, rfl⟩
  · intro auth u tp hauth htype hexp hbl
    have h : logoutEndpoint store blacklist now auth (some (.signed tp)) =
        ({ status := 200, body := [("message", "Successfully logged out.")] },
         blacklist ++ [tp.jti]) := by
      simp only [logoutEndpoint, hauth]
      rw [if_neg (signedRaw_ne_empty tp)]
      simp only [verifyRefreshToken]
      rw [if_neg (by omega), if_neg (by simp [htype]),
        if_neg (by rw [hbl]; simp)]
    rw [h]
    exact ⟨rfl, rfl⟩

/-- C8 (witness): the concrete demo request — missing refresh gives 400
with the blacklist unchanged, and a valid logout gives 200 adding the
refresh token's id. -/
theorem c8_logout_status_codes_witness :
    (logoutEndpoint [demoUser] [] 10 (some demoAccess) none).1.status = 400 ∧
    (logoutEndpoint [demoUser] [] 10 (some demoAccess)
      (some demoRefresh)).1.status = 200 :=
  ⟨((c8_logout_status_codes [demoUser] [] 10).2.2.1
      (some demoAccess) demoUser rfl).1,
   ((c8_logout_status_codes [demoUser] [] 10).2.2.2.2
      (some demoAccess) demoUser
      { user_id := 1, exp := 100, jti := 7, token_type := "refresh" }
      rfl rfl (by decide) (by decide)).1⟩

/-- C3: double logout with the same valid refresh token is NOT an
idempotent success in the implementation — the first call answers 200 and
blacklists the token's id, but the second call's token verification
rejects the now-blacklisted token, so the view answers 400, not the 200
no-op success the spec's intended contract states. -/
theorem c3_double_logout_answers_400 :
    (logoutEndpoint [demoUser] [] 10 (some demoAccess)
      (some demoRefresh)).1.status = 200 ∧
    (logoutEndpoint [demoUser] [] 10 (some demoAccess)
      (some demoRefresh)).2 = [7] ∧
    (logoutEndpoint [demoUser] [7] 10 (some demoAccess)
      (some demoRefresh)).1.status = 400 ∧
    (logoutEndpoint [demoUser] [7] 10 (some demoAccess)
      (some demoRefresh)).1.status ≠ 200 :=
  ⟨rfl, rfl, rfl, by decide⟩

/-- C2: the token-refresh operation (modelled from the spec, the deciding
code being the JWT library and its settings, outside `src/`) answers one
identical 401 response for every failing refresh token — malformed,
expired, or blacklisted are indistinguishable to the caller. -/
theorem c2_refresh_uniform_failure (blacklist : List Nat) (now : Nat)
    (t1 t2 : Jwt)
    (h1 : (verifyRefreshToken now blacklist t1).isOk = false)
    (h2 : (verifyRefreshToken now blacklist t2).isOk = false) :
    refreshEndpoint blacklist now (some t1) =
      refreshEndpoint blacklist now (some t2) ∧
    (refreshEndpoint blacklist now (some t1)).status = 401 := by
  cases hv1 : verifyRefreshToken now blacklist t1 with
  | error e1 =>
      cases hv2 : verifyRefreshToken now blacklist t2 with
      | error e2 =>
          constructor
          · simp only [refreshEndpoint, hv1, hv2]
          · simp only [refreshEndpoint, hv1]
      | ok p2 => rw [hv2] at h2; simp [Except.isOk, Except.toBool] at h2
  | ok p1 => rw [hv1] at h1; simp [Except.isOk, Except.toBool] at h1

/-- C2 (witness): a malformed token and a blacklisted well-signed token
receive the same 401 response. -/
theorem c2_refresh_uniform_failure_witness :
    refreshEndpoint [5] 10 (some (.malformed "zzz")) =
      refreshEndpoint [5] 10
        (some (.signed { user_id := 1, exp := 99, jti := 5,
                         token_type := "refresh" })) :=
  (c2_refresh_uniform_failure [5] 10 (.malformed "zzz")
    (.signed { user_id := 1, exp := 99, jti := 5, token_type := "refresh" })
    (by decide) (by decide)).1

/-- Splitting at the first `'$'` of a list that starts with a
`'$'`-free prefix returns that prefix and the remainder. -/
theorem splitDollarAux_append (A B : List Char) (h : ∀ c ∈ A, c ≠ '$') :
    splitDollarAux (A ++ '$' :: B) = (A, B) := by
  induction A with
  | nil => simp [splitDollarAux]
  | cons c rest ih =>
      have hc : c ≠ '$' := h c (by simp)
      simp [splitDollarAux, hc, ih (fun x hx => h x (by simp [hx]))]

/-- Salt and digest letters are never the separator. -/
theorem nibbleChar_ne_dollar (n : Nat) : nibbleChar n ≠ '$' := by
  unfold nibbleChar
  have h : n % 16 < 16 := Nat.mod_lt _ (by norm_num)
  set m := n % 16 with hm
  interval_cases m <;> decide

/-- The modelled salt never contains the separator. -/
theorem saltString_no_dollar (seed : Nat) :
    ∀ c ∈ (saltString seed).data, c ≠ '$' := by
  intro c hc
  simp only [saltString] at hc
  obtain ⟨i, _, rfl⟩ := List.mem_map.mp hc
  exact nibbleChar_ne_dollar _

/-- The digest stand-in is two letters per input character. -/
theorem pbkdf2Digest_length (pw salt : String) :
    (pbkdf2Digest pw salt).length = 2 * (pw.length + salt.length) := by
  have hdata : (pbkdf2Digest pw salt).length =
      ((pw ++ salt).data.flatMap
        (fun c => [nibbleChar (c.toNat / 16), nibbleChar c.toNat])).length := rfl
  rw [hdata, List.length_flatMap]
  have hmap : ∀ l : List Char,
      (List.map (List.length ∘
        fun c => [nibbleChar (c.toNat / 16), nibbleChar c.toNat]) l).sum =
        2 * l.length := by
    intro l
    induction l with
    | nil => simp
    | cons c rest ih => simp [ih]; omega
  rw [hmap]
  have h1 : (pw ++ salt).data.length = pw.data.length + salt.data.length := by
    rw [String.data_append, List.length_append]
  rw [h1]
  rfl

/-- The stored encoding is longer than the plaintext, hence never equal to
it. -/
theorem encodePassword_ne_plaintext (pw salt : String) :
    encodePassword pw salt ≠ pw := by
  intro heq
  have hlen := congrArg String.length heq
  unfold encodePassword at hlen
  rw [String.length_append, String.length_append, String.length_append,
    String.length_append, String.length_append] at hlen
  have hd := pbkdf2Digest_length pw salt
  have h13 : ("pbkdf2_sha256" : String).length = 13 := rfl
  have h1 : ("$" : String).length = 1 := rfl
  have h6 : (toString hasherIterations).length = 6 := rfl
  omega

/-- `check_password` accepts the encoding `set_password` stores: the salt
decoded from the encoding re-encodes the same password to the same
string. -/
theorem checkPassword_encodePassword (pw : String) (seed : Nat) :
    checkPassword pw (encodePassword pw (saltString seed)) = true := by
  have hdata : (encodePassword pw (saltString seed)).data =
      "pbkdf2_sha256".data ++ '$' :: ("390000".data ++ '$' ::
        ((saltString seed).data ++ '$' ::
          (pbkdf2Digest pw (saltString seed)).data)) := by
    unfold encodePassword
    have hit : toString hasherIterations = "390000" := rfl
    rw [hit]
    simp [String.data_append]
  have hs1 : splitDollarAux ("pbkdf2_sha256".data ++ '$' ::
      ("390000".data ++ '$' :: ((saltString seed).data ++ '$' ::
        (pbkdf2Digest pw (saltString seed)).data))) =
      ("pbkdf2_sha256".data, "390000".data ++ '$' ::
        ((saltString seed).data ++ '$' ::
          (pbkdf2Digest pw (saltString seed)).data)) :=
    splitDollarAux_append _ _ (by decide)
  have hs2 : splitDollarAux ("390000".data ++ '$' ::
      ((saltString seed).data ++ '$' ::
        (pbkdf2Digest pw (saltString seed)).data)) =
      ("390000".data, (saltString seed).data ++ '$' ::
        (pbkdf2Digest pw (saltString seed)).data) :=
    splitDollarAux_append _ _ (by decide)
  have hs3 : splitDollarAux ((saltString seed).data ++ '$' ::
      (pbkdf2Digest pw (saltString seed)).data) =
      ((saltString seed).data, (pbkdf2Digest pw (saltString seed)).data) :=
    splitDollarAux_append _ _ (saltString_no_dollar seed)
  simp only [checkPassword, splitDollar]
  rw [hdata, hs1]
  simp only []
  rw [hs2]
  simp only []
  rw [hs3]
  simp only []
  have e1 : ({ data := (saltString seed).data } : String) = saltString seed := rfl
  have e2 : ((String.mk ['p', 'b', 'k', 'd', 'f', '2', '_', 's', 'h', 'a',
      '2', '5', '6']) == "pbkdf2_sha256") = true := rfl
  rw [e1, e2]
  simp

/-- C9: for every registration payload that validates, the created
account's stored password field is the salted encoding, which verifies
against the submitted plaintext and is not equal to it; the profile
serialization used by both the register success response and the profile
endpoint has no password key and does not depend on the stored password
field at all, so no success response carries the password or its hash. -/
theorem c9_password_hashed_never_serialized (store : List User)
    (p : RegisterPayload) (seed now : Nat) (vd : ValidatedData)
    (h : runValidation store p = .ok vd) :
    checkPassword vd.password (createUser store vd seed now).password = true ∧
    (createUser store vd seed now).password ≠ vd.password ∧
    ((serializeUser (createUser store vd seed now)).map Prod.fst).contains
      "password" = false ∧
    (∀ pw', serializeUser
      { createUser store vd seed now with password := pw' } =
      serializeUser (createUser store vd seed now)) ∧
    (register store p seed now).1 =
      .created (serializeUser (createUser store vd seed now)) := by
  refine ⟨?_, ?_, ?_, fun pw' => rfl, ?_⟩
  · exact checkPassword_encodePassword vd.password seed
  · exact encodePassword_ne_plaintext vd.password (saltString seed)
  · have hkeys : (serializeUser (createUser store vd seed now)).map Prod.fst =
        ["id", "username", "email", "first_name", "last_name", "full_name",
         "profile_picture", "created_at", "updated_at"] := rfl
    rw [hkeys]
    decide
  · unfold register
    rw [h]

/-- C9 (witness): the spec's concrete scenario — the stored field verifies
against `"SecurePass123!"` and differs from it. -/
theorem c9_password_hashed_never_serialized_witness :
    checkPassword "SecurePass123!"
      (createUser [] specScenarioValidated 3 5).password = true ∧
    (createUser [] specScenarioValidated 3 5).password ≠ "SecurePass123!" :=
  ⟨(c9_password_hashed_never_serialized [] specScenarioPayload 3 5
      specScenarioValidated rfl).1,
   (c9_password_hashed_never_serialized [] specScenarioPayload 3 5
      specScenarioValidated rfl).2.1⟩

end UserAuth
